import Mathlib

/-!
Shallow embedding of the pyEight presence core (pyeight/user.py, pyeight/eight.py).

Conventions of the embedding:
* Python `None` / a missing dict key is `Option.none`; a raised Python
  exception (`AttributeError`, `TypeError`) is `Except.error` carrying the
  exception name.  Python object mutation is explicit state passing on
  `UserState`; functions that can both raise and mutate return
  `Except String α × UserState`, the state component being the object state
  at the moment the value is returned or the exception escapes (Python does
  not roll mutations back).
* The device-data dict is embedded as `Snapshot`, a record of the
  side-prefixed keys the embedded operations read
  (`leftHeatingLevel`, `rightTargetHeatingLevel`, ...); `Side` selects the
  prefix.  JSON values for these keys are integers / booleans, so the fields
  are `Option Int` / `Option Bool` (none = key absent).
* Machine integers: Python ints are unbounded, so `Int` is exact.
-/

/-- A bed side, the `left`/`right` prefix of the device-data keys. -/
inductive Side : Type
  | left : Side
  | right : Side
deriving DecidableEq

/-- One device-state snapshot: the side-prefixed fields of the device json
that the embedded operations read (`pyeight/user.py` reads
`{side}HeatingLevel`, `{side}TargetHeatingLevel`, `{side}NowHeating`,
`{side}HeatingDuration`, `{side}PresenceEnd`). -/
structure Snapshot : Type where
  leftHeatingLevel : Option Int
  rightHeatingLevel : Option Int
  leftTargetHeatingLevel : Option Int
  rightTargetHeatingLevel : Option Int
  leftNowHeating : Option Bool
  rightNowHeating : Option Bool
  leftHeatingDuration : Option Int
  rightHeatingDuration : Option Int
  leftPresenceEnd : Option Int
  rightPresenceEnd : Option Int
deriving DecidableEq

/-- Embeds `data.get(f"{side}HeatingLevel")`. -/
def Snapshot.heatingLevel (s : Snapshot) : Side → Option Int
  | Side.left => s.leftHeatingLevel
  | Side.right => s.rightHeatingLevel

/-- Embeds `data.get(f"{side}TargetHeatingLevel")`. -/
def Snapshot.targetLevel (s : Snapshot) : Side → Option Int
  | Side.left => s.leftTargetHeatingLevel
  | Side.right => s.rightTargetHeatingLevel

/-- Embeds `data.get(f"{side}NowHeating")`. -/
def Snapshot.nowHeatingFlag (s : Snapshot) : Side → Option Bool
  | Side.left => s.leftNowHeating
  | Side.right => s.rightNowHeating

/-- Embeds `data.get(f"{side}HeatingDuration")`. -/
def Snapshot.heatingDuration (s : Snapshot) : Side → Option Int
  | Side.left => s.leftHeatingDuration
  | Side.right => s.rightHeatingDuration

/-- Embeds `data.get(f"{side}PresenceEnd")`. -/
def Snapshot.presenceEnd (s : Snapshot) : Side → Option Int
  | Side.left => s.leftPresenceEnd
  | Side.right => s.rightPresenceEnd

/-- The `EightSleep` device state used by the presence core:
`_device_json` (the telemetry history list, slots hold `None` placeholders
until overwritten) and the `_pod` capability flag (`eight.py`). -/
structure Device : Type where
  device_json : List (Option Snapshot)
  is_pod : Bool

/-- Embeds `EightSleep.__init__` line 43-45: `self._device_json = [None, ..., None]`
(ten elements). -/
def device_json_init : List (Option Snapshot) :=
  [none, none, none, none, none, none, none, none, none, none]

/-- Embeds `EightSleep.handle_device_json`: `self._device_json.insert(0, data)` then
`self._device_json.pop()` (drop the last element). -/
def handle_device_json (data : Snapshot) (hist : List (Option Snapshot)) :
    List (Option Snapshot) :=
  (some data :: hist).dropLast

/-- Embeds `EightSleep.device_data`: `self._device_json[0]`.  The list has length 10
at construction and `handle_device_json` preserves the length, so the index
never fails; the embedding reads the head with default `none`. -/
def device_data (d : Device) : Option Snapshot :=
  d.device_json.headD none

/-- Pushing a whole sequence of fetched snapshots (in fetch order, head
pushed first) into the history, starting from the freshly initialized
ten-`None` list — the repeated `handle_device_json` of the polling cycle. -/
def push_all (datas : List Snapshot) : List (Option Snapshot) :=
  datas.foldl (fun h snap => handle_device_json snap h) device_json_init

/-- Embeds `EightUser.past_heating_level`:
`if num > 9 or len(self.device.device_data_history) < num + 1: return 0`
then `return self.device.device_data_history[num].get(key, 0)`.
When slot `num` still holds the `None` placeholder, `.get` on `None` raises
`AttributeError`. -/
def past_heating_level (side : Side) (hist : List (Option Snapshot))
    (num : Nat) : Except String Int :=
  if 9 < num ∨ hist.length < num + 1 then Except.ok 0
  else
    match hist.getD num none with
    | none => Except.error "AttributeError"
    | some snap => Except.ok ((snap.heatingLevel side).getD 0)

/-- One entry of an interval's `stages` list; `current_sleep_stage` reads
`stage_entry.get("stage")`. -/
structure Stage : Type where
  stage : Option String
deriving DecidableEq

/-- One sleep-session interval, restricted to the fields the embedded
operations read: `interval.get("stages")` (a missing or empty list are both
falsy, embedded as `[]`) and `interval.get("incomplete", False)`. -/
structure SleepInterval : Type where
  stages : List Stage
  incomplete : Bool
deriving DecidableEq

/-- The mutable `EightUser` state: `presence` and `observed_low` (the
presence-inference fields, `user.py` lines 36-37) together with the
remaining mutable attributes `trends`, `intervals` and `_user_profile`;
trend entries and the profile are opaque to the embedded operations, so
their types are parameters. -/
structure UserState (τ π : Type) : Type where
  presence : Bool
  observed_low : Int
  trends : List τ
  intervals : List SleepInterval
  user_profile : π
deriving DecidableEq

/-- Embeds `EightUser.__init__`: `presence = False`, `observed_low = 0`,
`trends = []`, `intervals = []`, `_user_profile = {}` (the fresh profile
value is a parameter here). -/
def init_user_state {τ π : Type} (profile : π) : UserState τ π :=
  { presence := false
    observed_low := 0
    trends := []
    intervals := []
    user_profile := profile }

/-- Python truthiness of `not x` on an `Optional[bool]`:
`not None = True`, `not False = True`, `not True = False`. -/
def pyNot : Option Bool → Bool
  | none => true
  | some b => !b

/-- Embeds `EightUser.target_heating_level`:
`self.device.device_data.get(f"{self.side}TargetHeatingLevel")`;
`.get` on a `None` device json raises `AttributeError`. -/
def target_heating_level (dd : Option Snapshot) (side : Side) :
    Except String (Option Int) :=
  match dd with
  | none => Except.error "AttributeError"
  | some snap => Except.ok (snap.targetLevel side)

/-- Embeds `EightUser.heating_level`: reads the level, and as a side effect updates
`observed_low` when the level is present and strictly below it; returns the
level unchanged. -/
def heating_level {τ π : Type} (dd : Option Snapshot) (side : Side)
    (st : UserState τ π) : Except String (Option Int) × UserState τ π :=
  match dd with
  | none => (Except.error "AttributeError", st)
  | some snap =>
    match snap.heatingLevel side with
    | none => (Except.ok none, st)
    | some l =>
      if l < st.observed_low then
        (Except.ok (some l), { st with observed_low := l })
      else
        (Except.ok (some l), st)

/-- Embeds `EightUser._now_heating_or_cooling`: `None` if the target level or the
`NowHeating` flag is absent, else the flag conjoined (Python `and`) with the
already-evaluated comparison `target_heating_level_check`. -/
def now_heating_or_cooling (dd : Option Snapshot) (side : Side)
    (check : Bool) : Except String (Option Bool) :=
  match dd with
  | none => Except.error "AttributeError"
  | some snap =>
    if snap.targetLevel side = none ∨ snap.nowHeatingFlag side = none then
      Except.ok none
    else
      Except.ok ((snap.nowHeatingFlag side).map (fun f => f && check))

/-- Embeds `EightUser.now_heating`:
`self._now_heating_or_cooling(self.target_heating_level > 0)`.
The argument is evaluated eagerly, so an absent target makes `None > 0`
raise `TypeError` before the callee's own `None` guard can run. -/
def now_heating (dd : Option Snapshot) (side : Side) :
    Except String (Option Bool) :=
  match target_heating_level dd side with
  | Except.error e => Except.error e
  | Except.ok none => Except.error "TypeError"
  | Except.ok (some t) => now_heating_or_cooling dd side (0 < t)

/-- Embeds `EightUser.now_cooling`:
`self._now_heating_or_cooling(self.target_heating_level < 0)`, with the same
eager-argument `TypeError` as `now_heating`. -/
def now_cooling (dd : Option Snapshot) (side : Side) :
    Except String (Option Bool) :=
  match target_heating_level dd side with
  | Except.error e => Except.error e
  | Except.ok none => Except.error "TypeError"
  | Except.ok (some t) => now_heating_or_cooling dd side (t < 0)

/-- Embeds `EightUser.heating_remaining`:
`self.device.device_data.get(f"{self.side}HeatingDuration")`. -/
def heating_remaining (dd : Option Snapshot) (side : Side) :
    Except String (Option Int) :=
  match dd with
  | none => Except.error "AttributeError"
  | some snap => Except.ok (snap.heatingDuration side)

/-- Embeds `EightUser.last_seen`: `None` when the `PresenceEnd` value is falsy
(absent or `0`), otherwise the timestamp.  The `strftime` formatting of the
timestamp is outside the embedding; the raw epoch value stands for the
formatted string. -/
def last_seen (dd : Option Snapshot) (side : Side) :
    Except String (Option Int) :=
  match dd with
  | none => Except.error "AttributeError"
  | some snap =>
    match snap.presenceEnd side with
    | none => Except.ok none
    | some t => if t = 0 then Except.ok none else Except.ok (some t)


/-- The rising-edge test of `dynamic_presence`: the three consecutive deltas
`past_heating_level(0..3)` all at least 2, with Python's left-to-right
short-circuit evaluation of the `and` chain (later calls are skipped once a
conjunct is false). -/
def rising_deltas (phl : Nat → Except String Int) : Except String Bool :=
  match phl 0, phl 1 with
  | Except.error e, _ => Except.error e
  | _, Except.error e => Except.error e
  | Except.ok p0, Except.ok p1 =>
    if 2 ≤ p0 - p1 then
      match phl 2 with
      | Except.error e => Except.error e
      | Except.ok p2 =>
        if 2 ≤ p1 - p2 then
          match phl 3 with
          | Except.error e => Except.error e
          | Except.ok p3 => Except.ok (decide (2 ≤ p2 - p3))
        else Except.ok false
    else Except.ok false

/-- The falling-edge test of `dynamic_presence`: the three consecutive deltas
all strictly negative, with the same short-circuit evaluation. -/
def falling_deltas (phl : Nat → Except String Int) : Except String Bool :=
  match phl 0, phl 1 with
  | Except.error e, _ => Except.error e
  | _, Except.error e => Except.error e
  | Except.ok p0, Except.ok p1 =>
    if p0 - p1 < 0 then
      match phl 2 with
      | Except.error e => Except.error e
      | Except.ok p2 =>
        if p1 - p2 < 0 then
          match phl 3 with
          | Except.error e => Except.error e
          | Except.ok p3 => Except.ok (decide (p2 - p3 < 0))
        else Except.ok false
    else Except.ok false

/-- Embeds `EightUser.dynamic_presence`.  Re-reads of the `heating_level` /
`target_heating_level` properties inside the body are embedded by the values
bound at the entry guard: the device json is fixed for the duration of the
call, so a repeated property read returns the same value, and the
`observed_low` ratchet is idempotent after the first read
(`heating_level_reread` below proves this). -/
def dynamic_presence {τ π : Type} (d : Device) (side : Side)
    (st : UserState τ π) : Except String Unit × UserState τ π :=
  let dd := device_data d
  match target_heating_level dd side with
  | Except.error e => (Except.error e, st)
  | Except.ok none => (Except.ok (), st)
  | Except.ok (some t) =>
    match heating_level dd side st with
    | (Except.error e, st1) => (Except.error e, st1)
    | (Except.ok none, st1) => (Except.ok (), st1)
    | (Except.ok (some l), st1) =>
      let level_zero := st1.observed_low * (-1)
      let working_level := l + level_zero
      let phl := past_heating_level side d.device_json
      if d.is_pod then
        if !st1.presence then
          if 50 < working_level then
            match now_cooling dd side, now_heating dd side with
            | Except.error e, _ => (Except.error e, st1)
            | _, Except.error e => (Except.error e, st1)
            | Except.ok nc, Except.ok nh =>
              if pyNot nc && pyNot nh then
                (Except.ok (), { st1 with presence := true })
              else if 0 < t then
                if 8 ≤ working_level - t then
                  (Except.ok (), { st1 with presence := true })
                else (Except.ok (), st1)
              else if t < 0 then
                if 8 ≤ l + t then
                  (Except.ok (), { st1 with presence := true })
                else (Except.ok (), st1)
              else (Except.ok (), st1)
          else if 25 < working_level then
            match rising_deltas phl with
            | Except.error e => (Except.error e, st1)
            | Except.ok true =>
              match now_heating dd side with
              | Except.error e => (Except.error e, st1)
              | Except.ok nh =>
                if pyNot nh then (Except.ok (), { st1 with presence := true })
                else if 8 ≤ working_level - t then
                  (Except.ok (), { st1 with presence := true })
                else (Except.ok (), st1)
            | Except.ok false => (Except.ok (), st1)
          else (Except.ok (), st1)
        else
          if working_level ≤ 15 then
            (Except.ok (), { st1 with presence := false })
          else if working_level < 35 then
            match falling_deltas phl with
            | Except.error e => (Except.error e, st1)
            | Except.ok true => (Except.ok (), { st1 with presence := false })
            | Except.ok false => (Except.ok (), st1)
          else (Except.ok (), st1)
      else
        if !st1.presence then
          if 50 < l then
            match now_heating dd side with
            | Except.error e => (Except.error e, st1)
            | Except.ok nh =>
              if pyNot nh then (Except.ok (), { st1 with presence := true })
              else if 8 ≤ l - t then
                (Except.ok (), { st1 with presence := true })
              else (Except.ok (), st1)
          else if 25 < l then
            match rising_deltas phl with
            | Except.error e => (Except.error e, st1)
            | Except.ok true =>
              match now_heating dd side with
              | Except.error e => (Except.error e, st1)
              | Except.ok nh =>
                if pyNot nh then (Except.ok (), { st1 with presence := true })
                else if 8 ≤ l - t then
                  (Except.ok (), { st1 with presence := true })
                else (Except.ok (), st1)
            | Except.ok false => (Except.ok (), st1)
          else (Except.ok (), st1)
        else
          if l ≤ 15 then (Except.ok (), { st1 with presence := false })
          else if l < 50 then
            match falling_deltas phl with
            | Except.error e => (Except.error e, st1)
            | Except.ok true => (Except.ok (), { st1 with presence := false })
            | Except.ok false => (Except.ok (), st1)
          else (Except.ok (), st1)

/-- The dict returned by `EightUser.heating_values`. -/
structure HeatingValues : Type where
  level : Option Int
  target : Option Int
  active : Option Bool
  remaining : Option Int
  last_seen : Option Int
deriving DecidableEq

/-- Embeds `EightUser.heating_values`: builds the dict, evaluating the five
properties in source order; `heating_level` runs first (mutating
`observed_low`) and a later exception (e.g. `now_heating`'s `TypeError`)
leaves that mutation in place. -/
def heating_values {τ π : Type} (dd : Option Snapshot) (side : Side)
    (st : UserState τ π) : Except String HeatingValues × UserState τ π :=
  match heating_level dd side st with
  | (Except.error e, st1) => (Except.error e, st1)
  | (Except.ok lv, st1) =>
    match target_heating_level dd side with
    | Except.error e => (Except.error e, st1)
    | Except.ok tg =>
      match now_heating dd side with
      | Except.error e => (Except.error e, st1)
      | Except.ok act =>
        match heating_remaining dd side with
        | Except.error e => (Except.error e, st1)
        | Except.ok rem =>
          match last_seen dd side with
          | Except.error e => (Except.error e, st1)
          | Except.ok ls =>
            (Except.ok
              { level := lv, target := tg, active := act,
                remaining := rem, last_seen := ls }, st1)

/-- Embeds `EightUser._session_processing`: `None` when there are fewer than
`interval_num + 1` intervals, else `intervals[interval_num].get("incomplete",
False)`. -/
def session_processing {τ π : Type} (st : UserState τ π)
    (interval_num : Nat) : Option Bool :=
  if st.intervals.length < interval_num + 1 then none
  else some ((st.intervals.getD interval_num ⟨[], false⟩).incomplete)

/-- Embeds `EightUser.current_sleep_stage`: early `None` when intervals are missing
or fewer than two stage entries exist; picks the second-to-last stage while
processing, else the last; then the heating-level override — reading
`self.heating_level` twice (`is not None`, then `< 5`), each read applying
the `observed_low` ratchet. -/
def current_sleep_stage {τ π : Type} (dd : Option Snapshot) (side : Side)
    (st : UserState τ π) : Except String (Option String) × UserState τ π :=
  match st.intervals with
  | [] => (Except.ok none, st)
  | iv :: _ =>
    if iv.stages = [] ∨ iv.stages.length < 2 then (Except.ok none, st)
    else
      let stage :=
        if (session_processing st 0).getD false then
          (iv.stages.getD (iv.stages.length - 2) ⟨none⟩).stage
        else
          (iv.stages.getD (iv.stages.length - 1) ⟨none⟩).stage
      if stage = some "awake" then (Except.ok stage, st)
      else
        match heating_level dd side st with
        | (Except.error e, st2) => (Except.error e, st2)
        | (Except.ok none, st2) => (Except.ok stage, st2)
        | (Except.ok (some _), st2) =>
          match heating_level dd side st2 with
          | (Except.error e, st3) => (Except.error e, st3)
          | (Except.ok none, st3) => (Except.error "TypeError", st3)
          | (Except.ok (some l2), st3) =>
            if l2 < 5 then (Except.ok (some "awake"), st3)
            else (Except.ok stage, st3)

/-- Feeding a sequence of polled snapshots to one side's `heating_level`
property, keeping the state: how `observed_low` evolves over a session. -/
def process_readings {τ π : Type} (side : Side) (st : UserState τ π)
    (snaps : List Snapshot) : UserState τ π :=
  snaps.foldl (fun s snap => (heating_level (some snap) side s).2) st

/-- The present heating-level readings of one side in a list of snapshots. -/
def readings (side : Side) (snaps : List Snapshot) : List Int :=
  snaps.filterMap (fun snap => snap.heatingLevel side)

/-- The true minimum of a list of readings (`none` when there are none). -/
def readings_min : List Int → Option Int
  | [] => none
  | x :: xs => some (xs.foldl min x)

/-- A snapshot whose two sides carry the same heating level, target level and
now-heating flag; convenience constructor for concrete instances. -/
def mkSnap (hl tgt : Option Int) (nh : Option Bool) : Snapshot :=
  { leftHeatingLevel := hl, rightHeatingLevel := hl
    leftTargetHeatingLevel := tgt, rightTargetHeatingLevel := tgt
    leftNowHeating := nh, rightNowHeating := nh
    leftHeatingDuration := none, rightHeatingDuration := none
    leftPresenceEnd := none, rightPresenceEnd := none }

lemma observed_low_update (ol l : Int) : (if l < ol then l else ol) = min ol l := by
  rcases lt_or_le l ol with h | h
  · rw [if_pos h, min_eq_right h.le]
  · rw [if_neg (not_lt.2 h), min_eq_left h]

lemma heating_level_present {τ π : Type} {snap : Snapshot} {side : Side}
    {l : Int} (st : UserState τ π) (h : snap.heatingLevel side = some l) :
    heating_level (some snap) side st =
      (Except.ok (some l), { st with observed_low := min st.observed_low l }) := by
  simp only [heating_level, h]
  rcases lt_or_le l st.observed_low with hc | hc
  · rw [if_pos hc, min_eq_right hc.le]
  · rw [if_neg (not_lt.2 hc), min_eq_left hc]

lemma heating_level_absent {τ π : Type} {snap : Snapshot} {side : Side}
    (st : UserState τ π) (h : snap.heatingLevel side = none) :
    heating_level (some snap) side st = (Except.ok none, st) := by
  simp only [heating_level, h]

lemma heating_level_reread {τ π : Type} {snap : Snapshot} {side : Side}
    {l : Int} (st : UserState τ π) (h : snap.heatingLevel side = some l)
    (hle : st.observed_low ≤ l) :
    heating_level (some snap) side st = (Except.ok (some l), st) := by
  rw [heating_level_present st h, min_eq_left hle]

lemma heating_level_ol_le {τ π : Type} (dd : Option Snapshot) (side : Side)
    (st : UserState τ π) :
    (heating_level dd side st).2.observed_low ≤ st.observed_low := by
  cases dd with
  | none => simp [heating_level]
  | some snap =>
    cases h : snap.heatingLevel side with
    | none => rw [heating_level_absent st h]
    | some l => rw [heating_level_present st h]; exact min_le_left _ _

/-- C1: the claim says `past_heating_level(n)` returns the default 0 and
never raises when fewer than `n+1` snapshots have been pushed.  The code is
wrong: `_device_json` is pre-filled with ten `None` placeholders, so the
`len < num + 1` guard is dead and slot `num` still holds `None`; `.get` on
it raises `AttributeError`.  Here: after a single push, `past_heating_level`
at index 1 raises (the repo's own test asserts it returns 0 there), while
indices above 9 do return 0 as claimed. -/
theorem C1_past_heating_level_raises :
    past_heating_level Side.left
        (handle_device_json (mkSnap (some 10) (some 0) (some false))
          device_json_init) 1
      = Except.error "AttributeError"
    ∧ past_heating_level Side.left
        (handle_device_json (mkSnap (some 10) (some 0) (some false))
          device_json_init) 10
      = Except.ok 0
    ∧ past_heating_level Side.left
        (handle_device_json (mkSnap (some 10) (some 0) (some false))
          device_json_init) 0
      = Except.ok 10 := by
  refine ⟨rfl, rfl, rfl⟩

/-- C6: the claim says `now_heating` / `now_cooling` return absent rather
than raising whenever the target level or the now-heating flag is absent.
The flag half is true, but the argument `self.target_heating_level > 0` is
evaluated eagerly, so an absent target makes `None > 0` raise `TypeError`
before the callee's own `None` guard can run: the guard is dead code,
contradicting the code's expressed intent.  The last three conjuncts check
the all-present derivation `deviceReportsActive AND target >/< 0`. -/
theorem C6_now_heating_cooling_eval :
    now_heating (some (mkSnap (some 20) none (some true))) Side.left
      = Except.error "TypeError"
    ∧ now_cooling (some (mkSnap (some 20) none (some true))) Side.left
      = Except.error "TypeError"
    ∧ now_heating (some (mkSnap (some 20) (some 10) none)) Side.left
      = Except.ok none
    ∧ now_cooling (some (mkSnap (some 20) (some 10) none)) Side.left
      = Except.ok none
    ∧ now_heating (some (mkSnap (some 20) (some 10) (some true))) Side.left
      = Except.ok (some true)
    ∧ now_cooling (some (mkSnap (some 20) (some 10) (some true))) Side.left
      = Except.ok (some false)
    ∧ now_cooling (some (mkSnap (some 20) (some (-10)) (some true))) Side.left
      = Except.ok (some true) := by
  refine ⟨rfl, rfl, rfl, rfl, rfl, rfl, rfl⟩

/-- C2 counterexample: the claim says `observed_low` after processing equals
the true minimum of all readings seen so far.  One reading of 5 refutes it:
the true minimum is 5, but `observed_low` stays at its initial 0 (the
ratchet only moves on readings strictly below the current value). -/
theorem C2_counterexample_positive_reading :
    readings_min
        (readings Side.left [mkSnap (some 5) (some 0) (some false)])
      = some 5
    ∧ (process_readings Side.left (init_user_state (τ := Unit) ())
        [mkSnap (some 5) (some 0) (some false)]).observed_low = 0
    ∧ (0 : Int) ≠ 5 := by
  refine ⟨rfl, rfl, by decide⟩

lemma process_readings_cons {τ π : Type} (side : Side) (st : UserState τ π)
    (snap : Snapshot) (snaps : List Snapshot) :
    process_readings side st (snap :: snaps)
      = process_readings side ((heating_level (some snap) side st).2) snaps := rfl

lemma process_readings_observed_low {τ π : Type} (side : Side)
    (st : UserState τ π) (snaps : List Snapshot) :
    (process_readings side st snaps).observed_low
      = (readings side snaps).foldl min st.observed_low := by
  induction snaps generalizing st with
  | nil => rfl
  | cons snap snaps ih =>
    rw [process_readings_cons, ih]
    cases h : snap.heatingLevel side with
    | none =>
      rw [heating_level_absent st h]
      simp [readings, List.filterMap_cons, h]
    | some l =>
      rw [heating_level_present st h]
      simp [readings, List.filterMap_cons, h]

/-- C2 amended: after processing, `observed_low` equals the minimum of 0
(its initial value) and all readings seen so far — the true minimum of the
readings whenever any reading is ≤ 0 — and it never increases across
updates. -/
theorem C2_observed_low_floor_min {τ π : Type} (side : Side) (p : π)
    (st : UserState τ π) (snaps : List Snapshot) (snap : Snapshot) :
    (process_readings side (init_user_state (τ := τ) p) snaps).observed_low
        = (readings side snaps).foldl min 0
    ∧ (process_readings side st (snaps ++ [snap])).observed_low
        ≤ (process_readings side st snaps).observed_low := by
  constructor
  · exact process_readings_observed_low side _ snaps
  · rw [process_readings_observed_low, process_readings_observed_low]
    have hr : readings side (snaps ++ [snap])
        = readings side snaps ++ readings side [snap] := by
      simp [readings]
    rw [hr, List.foldl_append]
    cases h : snap.heatingLevel side with
    | none => simp [readings, List.filterMap_cons, h]
    | some l =>
      simp only [readings, List.filterMap_cons, h, List.filterMap_nil,
        List.foldl_cons, List.foldl_nil]
      exact min_le_left _ _

/-- C3: if the current heating level or the current target heating level is
absent from the snapshot, `dynamic_presence` returns at its entry guard and
`presence` after the evaluation equals `presence` before it, for every prior
state. -/
theorem C3_no_data_no_op {τ π : Type} (d : Device) (side : Side)
    (st : UserState τ π) (snap : Snapshot)
    (hdd : device_data d = some snap)
    (habs : snap.targetLevel side = none ∨ snap.heatingLevel side = none) :
    (dynamic_presence d side st).2.presence = st.presence := by
  rcases habs with h | h
  · simp [dynamic_presence, hdd, target_heating_level, h]
  · cases ht : snap.targetLevel side with
    | none => simp [dynamic_presence, hdd, target_heating_level, ht]
    | some t =>
      simp [dynamic_presence, hdd, target_heating_level, ht,
        heating_level_absent st h]

theorem C3_no_data_no_op_witness :
    (dynamic_presence (τ := Unit) (π := Unit)
        { device_json := [some (mkSnap none none none)], is_pod := true }
        Side.left (init_user_state ())).2.presence = false := by
  have h := C3_no_data_no_op (τ := Unit) (π := Unit)
    { device_json := [some (mkSnap none none none)], is_pod := true }
    Side.left (init_user_state ()) (mkSnap none none none) rfl (Or.inl rfl)
  exact h.trans rfl

/-- C7: on a non-cooling device side with level and target both present,
whenever `presence` is true and the heating level is at most 15, evaluation
hits the failsafe branch and clears `presence`, for every history buffer. -/
theorem C7_failsafe_floor {τ π : Type} (d : Device) (side : Side)
    (st : UserState τ π) (snap : Snapshot) (l t : Int)
    (hpod : d.is_pod = false)
    (hdd : device_data d = some snap)
    (hl : snap.heatingLevel side = some l)
    (ht : snap.targetLevel side = some t)
    (hpres : st.presence = true)
    (hfloor : l ≤ 15) :
    (dynamic_presence d side st).2.presence = false := by
  simp [dynamic_presence, hdd, target_heating_level, ht,
    heating_level_present st hl, hpod, hpres, hfloor]

theorem C7_failsafe_floor_witness :
    (dynamic_presence (τ := Unit) (π := Unit)
        { device_json := [some (mkSnap (some 10) (some 0) (some false))]
          is_pod := false }
        Side.left
        { presence := true, observed_low := 0, trends := [], intervals := []
          user_profile := () }).2.presence = false := by
  exact C7_failsafe_floor _ Side.left _ (mkSnap (some 10) (some 0) (some false))
    10 0 rfl rfl rfl rfl rfl (by decide)

lemma rising_deltas_ok (phl : Nat → Except String Int) (p0 p1 p2 p3 : Int)
    (h0 : phl 0 = Except.ok p0) (h1 : phl 1 = Except.ok p1)
    (h2 : phl 2 = Except.ok p2) (h3 : phl 3 = Except.ok p3) :
    rising_deltas phl
      = Except.ok (decide (2 ≤ p0 - p1) &&
          (decide (2 ≤ p1 - p2) && decide (2 ≤ p2 - p3))) := by
  simp only [rising_deltas, h0, h1, h2, h3]
  by_cases c0 : 2 ≤ p0 - p1 <;> by_cases c1 : 2 ≤ p1 - p2 <;> simp [c0, c1]

/-- C4: non-cooling side, `presence` false, level in the band
`25 < level ≤ 50`, now-heating flag false, all four history reads
succeeding: evaluation sets `presence` exactly when all three consecutive
deltas are at least 2 (so `[28, 26, 24, 22]` activates, and any delta of 1
leaves `presence` false). -/
theorem C4_rising_edge_iff {τ π : Type} (d : Device) (side : Side)
    (st : UserState τ π) (snap : Snapshot) (l t p0 p1 p2 p3 : Int)
    (hpod : d.is_pod = false)
    (hdd : device_data d = some snap)
    (hl : snap.heatingLevel side = some l)
    (hband : 25 < l ∧ l ≤ 50)
    (ht : snap.targetLevel side = some t)
    (hnh : snap.nowHeatingFlag side = some false)
    (hpres : st.presence = false)
    (h0 : past_heating_level side d.device_json 0 = Except.ok p0)
    (h1 : past_heating_level side d.device_json 1 = Except.ok p1)
    (h2 : past_heating_level side d.device_json 2 = Except.ok p2)
    (h3 : past_heating_level side d.device_json 3 = Except.ok p3) :
    ((dynamic_presence d side st).2.presence = true
      ↔ (2 ≤ p0 - p1 ∧ 2 ≤ p1 - p2 ∧ 2 ≤ p2 - p3)) := by
  have hnot50 : ¬ (50 < l) := not_lt.2 hband.2
  have h25 : 25 < l := hband.1
  have hrd := rising_deltas_ok (past_heating_level side d.device_json)
    p0 p1 p2 p3 h0 h1 h2 h3
  by_cases d0 : 2 ≤ p0 - p1 <;> by_cases d1 : 2 ≤ p1 - p2 <;>
    by_cases d2 : 2 ≤ p2 - p3 <;>
    · simp only [d0, d1, d2, decide_True, decide_False, Bool.and_self,
        Bool.and_true, Bool.and_false, Bool.true_and, Bool.false_and] at hrd
      simp [dynamic_presence, hdd, target_heating_level, ht,
        heating_level_present st hl, hpod, hpres, hnot50, h25, hrd,
        now_heating, now_heating_or_cooling, hnh, pyNot, d0, d1, d2]

theorem C4_rising_edge_iff_witness :
    (dynamic_presence (τ := Unit) (π := Unit)
        { device_json :=
            [some (mkSnap (some 28) (some 0) (some false)),
             some (mkSnap (some 26) (some 0) (some false)),
             some (mkSnap (some 24) (some 0) (some false)),
             some (mkSnap (some 22) (some 0) (some false)),
             none, none, none, none, none, none]
          is_pod := false }
        Side.left (init_user_state ())).2.presence = true := by
  exact (C4_rising_edge_iff
    { device_json :=
        [some (mkSnap (some 28) (some 0) (some false)),
         some (mkSnap (some 26) (some 0) (some false)),
         some (mkSnap (some 24) (some 0) (some false)),
         some (mkSnap (some 22) (some 0) (some false)),
         none, none, none, none, none, none]
      is_pod := false }
    Side.left (init_user_state ()) (mkSnap (some 28) (some 0) (some false))
    28 0 28 26 24 22 rfl rfl rfl (by constructor <;> decide) rfl rfl rfl
    rfl rfl rfl rfl).mpr ⟨by decide, by decide, by decide⟩

/-- C8: cooling-capable side, `presence` false, cooling active
(`nowCooling` true), target −30 and raw level −25.  The cooling-excess test
of the `workingLevel > 50` branch compares the raw level:
`heatingLevel + targetHeatingLevel = -55 < 8`, so that branch never
activates presence — whatever `observed_low` (hence `workingLevel`) is —
and presence can only become true through the rising-edge branch of the
`25 < workingLevel ≤ 50` band.  `workingLevel` here is
`-25 + min observed_low (-25) * (-1)` (the level plus the negated
post-ratchet observed low). -/
theorem C8_cooling_excess_uses_raw_level {τ π : Type} (d : Device)
    (side : Side) (st : UserState τ π) (snap : Snapshot)
    (hpod : d.is_pod = true)
    (hdd : device_data d = some snap)
    (hl : snap.heatingLevel side = some (-25))
    (ht : snap.targetLevel side = some (-30))
    (hflag : snap.nowHeatingFlag side = some true)
    (hpres : st.presence = false) :
    (50 < (-25 : Int) + min st.observed_low (-25) * (-1) →
        (dynamic_presence d side st).2.presence = false)
    ∧ ((dynamic_presence d side st).2.presence = true →
        25 < (-25 : Int) + min st.observed_low (-25) * (-1)
        ∧ (-25 : Int) + min st.observed_low (-25) * (-1) ≤ 50
        ∧ rising_deltas (past_heating_level side d.device_json)
            = Except.ok true) := by
  constructor
  · intro h50
    have h50n : st.observed_low ⊓ (-25) < -75 := by
      rw [mul_neg_one] at h50; omega
    simp [dynamic_presence, hdd, target_heating_level, ht,
      heating_level_present st hl, hpod, hpres, now_cooling, now_heating,
      now_heating_or_cooling, hflag, pyNot]
    split_ifs with h1 h2 <;> first | rfl | (exfalso; omega)
  · intro hp
    simp [dynamic_presence, hdd, target_heating_level, ht,
      heating_level_present st hl, hpod, hpres, now_cooling, now_heating,
      now_heating_or_cooling, hflag, pyNot] at hp
    by_cases h1 : 50 + st.observed_low ⊓ (-25) < -25
    · rw [if_pos h1] at hp
      simp at hp
    · rw [if_neg h1] at hp
      by_cases h2 : 25 + st.observed_low ⊓ (-25) < -25
      · rw [if_pos h2] at hp
        rcases hrr : rising_deltas (past_heating_level side d.device_json)
          with e | b
        · rw [hrr] at hp; simp at hp
        · cases b
          · rw [hrr] at hp; simp at hp
          · refine ⟨?_, ?_, rfl⟩ <;> simp only [mul_neg_one] <;> omega
      · rw [if_neg h2] at hp
        simp at hp

theorem C8_cooling_excess_uses_raw_level_witness :
    (dynamic_presence (τ := Unit) (π := Unit)
        { device_json :=
            [some (mkSnap (some (-25)) (some (-30)) (some true)),
             none, none, none, none, none, none, none, none, none]
          is_pod := true }
        Side.left
        { presence := false, observed_low := -100, trends := []
          intervals := [], user_profile := () }).2.presence = false := by
  exact (C8_cooling_excess_uses_raw_level
    { device_json :=
        [some (mkSnap (some (-25)) (some (-30)) (some true)),
         none, none, none, none, none, none, none, none, none]
      is_pod := true }
    Side.left
    { presence := false, observed_low := -100, trends := []
      intervals := [], user_profile := () }
    (mkSnap (some (-25)) (some (-30)) (some true))
    rfl rfl rfl rfl rfl rfl).1 (by decide)

lemma push_all_append (ds : List Snapshot) (d : Snapshot) :
    push_all (ds ++ [d]) = handle_device_json d (push_all ds) := by
  simp [push_all, List.foldl_append]

lemma push_all_eq (datas : List Snapshot) :
    push_all datas
      = ((datas.reverse.map some) ++ device_json_init).take 10 := by
  induction datas using List.reverseRecOn with
  | nil => rfl
  | append_singleton ds d ih =>
    have hlen :
        ((ds.reverse.map some ++ device_json_init).take 10).length = 10 := by
      simp [device_json_init]
    rw [push_all_append, ih, handle_device_json, List.dropLast_eq_take,
      List.length_cons, hlen]
    have h10 : (10 + 1 - 1 : Nat) = 9 + 1 := rfl
    rw [h10, List.reverse_append, List.reverse_singleton,
      List.singleton_append, List.map_cons, List.cons_append,
      List.take_succ_cons, List.take_take]
    have h9 : (9 ⊓ 10 : Nat) = 9 := rfl
    rw [h9]
    conv_rhs => rw [show (10 : Nat) = 9 + 1 from rfl, List.take_succ_cons]

/-- C5: after `N > 10` pushes into the freshly initialized history, the list
holds exactly 10 entries; index 0 holds the most recently pushed snapshot
(`datas.reverse[0]?`), index 9 the 10th-most-recent (`datas.reverse[9]?`),
and `past_heating_level` returns the default 0 at every index of at least
10. -/
theorem C5_history_bound (side : Side) (datas : List Snapshot)
    (h : 10 < datas.length) :
    (push_all datas).length = 10
    ∧ (push_all datas)[0]? = (datas.reverse[0]?).map some
    ∧ (push_all datas)[9]? = (datas.reverse[9]?).map some
    ∧ ∀ n : Nat, 10 ≤ n →
        past_heating_level side (push_all datas) n = Except.ok 0 := by
  have hlenrev : datas.reverse.length = datas.length := List.length_reverse datas
  refine ⟨?_, ?_, ?_, ?_⟩
  · rw [push_all_eq]
    simp [device_json_init]
  · rw [push_all_eq, List.getElem?_take_of_lt (by omega : (0:Nat) < 10),
      List.getElem?_append_left (by simp; omega), List.getElem?_map]
  · rw [push_all_eq, List.getElem?_take_of_lt (by omega : (9:Nat) < 10),
      List.getElem?_append_left (by simp; omega), List.getElem?_map]
  · intro n hn
    rw [past_heating_level, if_pos (Or.inl (by omega))]

theorem C5_history_bound_witness :
    (push_all (List.map (fun i => mkSnap (some i) (some 0) (some false))
        [1, 2, 3, 4, 5, 6, 7, 8, 9, 10, 11])).length = 10 := by
  exact (C5_history_bound Side.left
    (List.map (fun i => mkSnap (some i) (some 0) (some false))
      [1, 2, 3, 4, 5, 6, 7, 8, 9, 10, 11]) (by decide)).1

lemma heating_values_state {τ π : Type} (dd : Option Snapshot) (side : Side)
    (st : UserState τ π) :
    (heating_values dd side st).2 = (heating_level dd side st).2 := by
  rcases hhl : heating_level dd side st with ⟨r, st1⟩
  simp only [heating_values, hhl]
  rcases r with e | lv
  · rfl
  · rcases htg : target_heating_level dd side with e | tg
    · rfl
    · rcases hnh : now_heating dd side with e | act
      · rfl
      · rcases hrem : heating_remaining dd side with e | rem
        · rfl
        · rcases hls : last_seen dd side with e | ls
          · rfl
          · rfl

lemma current_sleep_stage_state {τ π : Type} (dd : Option Snapshot)
    (side : Side) (st : UserState τ π) :
    (current_sleep_stage dd side st).2 = st
    ∨ (current_sleep_stage dd side st).2 = (heating_level dd side st).2 := by
  rw [current_sleep_stage]
  cases hiv : st.intervals with
  | nil => left; rfl
  | cons iv rest =>
    by_cases hg : iv.stages = [] ∨ iv.stages.length < 2
    · left; simp [hg]
    · simp only [hg, if_false]
      set stage := if (session_processing st 0).getD false then
          (iv.stages.getD (iv.stages.length - 2) ⟨none⟩).stage
        else (iv.stages.getD (iv.stages.length - 1) ⟨none⟩).stage with hstage
      by_cases hs : stage = some "awake"
      · left; simp [hs]
      · simp only [hs, if_false]
        cases dd with
        | none => right; simp [heating_level]
        | some snap =>
          cases hl : snap.heatingLevel side with
          | none => right; simp [heating_level_absent st hl]
          | some l =>
            right
            simp only [heating_level_present st hl]
            rw [heating_level_reread _ hl (min_le_right _ _)]
            by_cases hl5 : l < 5 <;> simp [hl5]

lemma dynamic_presence_observed_low {τ π : Type} (d : Device) (side : Side)
    (st : UserState τ π) :
    (dynamic_presence d side st).2.observed_low = st.observed_low
    ∨ (dynamic_presence d side st).2.observed_low
        = (heating_level (device_data d) side st).2.observed_low := by
  rcases htg : target_heating_level (device_data d) side with e | o
  · left; simp [dynamic_presence, htg]
  · rcases o with _ | t
    · left; simp [dynamic_presence, htg]
    · rcases hhl : heating_level (device_data d) side st with ⟨r, st1⟩
      rcases r with e | lv
      · right; simp [dynamic_presence, htg, hhl]
      · rcases lv with _ | l
        · right; simp [dynamic_presence, htg, hhl]
        · right
          simp only [dynamic_presence, htg, hhl]
          repeat' split
          all_goals rfl

/-- C9: `observed_low` is 0 at creation and every embedded operation keeps
it nonpositive (the ratchet only ever lowers it); consequently, inside
`dynamic_presence`, `level_zero = observed_low * (-1)` is nonnegative and
the working level `heatingLevel + level_zero` is at least the raw heating
level. -/
theorem C9_observed_low_nonpositive {τ π : Type} (d : Device) (side : Side)
    (st : UserState τ π) (p : π) (h : st.observed_low ≤ 0) :
    (init_user_state (τ := τ) p).observed_low ≤ 0
    ∧ (heating_level (device_data d) side st).2.observed_low ≤ 0
    ∧ (heating_values (device_data d) side st).2.observed_low ≤ 0
    ∧ (current_sleep_stage (device_data d) side st).2.observed_low ≤ 0
    ∧ (dynamic_presence d side st).2.observed_low ≤ 0
    ∧ (∀ l st1,
        heating_level (device_data d) side st = (Except.ok (some l), st1) →
        0 ≤ st1.observed_low * (-1) ∧ l ≤ l + st1.observed_low * (-1)) := by
  have hle := heating_level_ol_le (device_data d) side st
  refine ⟨le_refl 0, hle.trans h, ?_, ?_, ?_, ?_⟩
  · rw [heating_values_state]
    exact hle.trans h
  · rcases current_sleep_stage_state (device_data d) side st with hc | hc <;>
      rw [hc]
    · exact h
    · exact hle.trans h
  · rcases dynamic_presence_observed_low d side st with hc | hc <;> rw [hc]
    · exact h
    · exact hle.trans h
  · intro l st1 heq
    have hst1 : st1.observed_low ≤ 0 := by
      have := hle
      rw [heq] at this
      exact this.trans h
    constructor <;> rw [mul_neg_one] <;> omega

theorem C9_observed_low_nonpositive_witness :
    (heating_level (τ := Unit) (π := Unit)
        (device_data
          { device_json := [some (mkSnap (some (-3)) (some 0) (some false))]
            is_pod := true })
        Side.left (init_user_state ())).2.observed_low ≤ 0 := by
  exact (C9_observed_low_nonpositive
    { device_json := [some (mkSnap (some (-3)) (some 0) (some false))]
      is_pod := true }
    Side.left (init_user_state ()) () (le_refl 0)).2.1

/-- C10: a read of the `heating_level` property updates `observed_low` to
`min observed_low level` when the level is present, leaves the state intact
when it is absent (or the device json is missing), and touches no other
field of the user state; the reads made through `heating_values` and
`current_sleep_stage` have exactly the same effect — their final state is
either the untouched input state or the state of one `heating_level`
read. -/
theorem C10_heating_level_frame {τ π : Type} (dd : Option Snapshot)
    (side : Side) (st : UserState τ π) :
    ((heating_level dd side st).2.presence = st.presence
      ∧ (heating_level dd side st).2.trends = st.trends
      ∧ (heating_level dd side st).2.intervals = st.intervals
      ∧ (heating_level dd side st).2.user_profile = st.user_profile)
    ∧ (∀ snap l, dd = some snap → snap.heatingLevel side = some l →
        (heating_level dd side st).2
          = { st with observed_low := min st.observed_low l })
    ∧ (∀ snap, dd = some snap → snap.heatingLevel side = none →
        (heating_level dd side st).2 = st)
    ∧ (dd = none → (heating_level dd side st).2 = st)
    ∧ (heating_values dd side st).2 = (heating_level dd side st).2
    ∧ ((current_sleep_stage dd side st).2 = st
        ∨ (current_sleep_stage dd side st).2
            = (heating_level dd side st).2) := by
  refine ⟨?_, ?_, ?_, ?_, heating_values_state dd side st,
    current_sleep_stage_state dd side st⟩
  · cases dd with
    | none => exact ⟨rfl, rfl, rfl, rfl⟩
    | some snap =>
      cases hl : snap.heatingLevel side with
      | none => rw [heating_level_absent st hl]; exact ⟨rfl, rfl, rfl, rfl⟩
      | some l => rw [heating_level_present st hl]; exact ⟨rfl, rfl, rfl, rfl⟩
  · intro snap l hdd hl
    subst hdd
    rw [heating_level_present st hl]
  · intro snap hdd hl
    subst hdd
    rw [heating_level_absent st hl]
  · intro hdd
    subst hdd
    rfl

theorem C10_heating_level_frame_witness :
    (heating_level (τ := Unit) (π := Unit)
        (some (mkSnap (some 7) (some 0) (some false))) Side.left
        (init_user_state ())).2.observed_low = min 0 7 := by
  rw [(C10_heating_level_frame (some (mkSnap (some 7) (some 0) (some false)))
    Side.left (init_user_state ())).2.1
    (mkSnap (some 7) (some 0) (some false)) 7 rfl rfl]
  rfl
